import Mathlib

/-!
Shallow embedding of the transit-vetting statistics of the TOI 864.01
validation scripts.  Floating-point values are modelled as exact rationals
(`ℚ`) or reals (`ℝ`); IEEE NaN is modelled by `none` in `Option ℚ`.
`np.sqrt` and the cube root `** (1/3)` are passed as explicit function
parameters where a claim is structural, and instantiated with `Real.sqrt`
and `fun x => x ^ ((1:ℝ)/3)` where a claim is numerical.
-/

namespace TransitVetting

/-- a float that may be NaN: `none` models IEEE NaN, `some q` a finite value. -/
abbrev RVal := Option ℚ

/-- NaN-propagating addition, as in IEEE float arithmetic. -/
instance : Add RVal :=
  ⟨fun a b => match a, b with
    | some x, some y => some (x + y)
    | _, _ => none⟩

/-- NaN-propagating subtraction. -/
instance : Sub RVal :=
  ⟨fun a b => match a, b with
    | some x, some y => some (x - y)
    | _, _ => none⟩

/-- NaN-propagating multiplication. -/
instance : Mul RVal :=
  ⟨fun a b => match a, b with
    | some x, some y => some (x * y)
    | _, _ => none⟩

/-- NaN-propagating division (rational division; `q / 0 = 0` stands in for
the float infinities, which none of the settled claims touch). -/
instance : Div RVal :=
  ⟨fun a b => match a, b with
    | some x, some y => some (x / y)
    | _, _ => none⟩

/-- NaN-propagating natural power (`x ** 2` on floats). -/
instance : Pow RVal ℕ := ⟨fun a n => a.map (· ^ n)⟩

/-- NaN-propagating absolute value (`np.abs`). -/
def oabs (a : RVal) : RVal := a.map (|·|)

/-- insert into a sorted list (helper for the sort used by the medians). -/
def insertSorted (x : ℚ) : List ℚ → List ℚ
  | [] => [x]
  | y :: ys => if x ≤ y then x :: y :: ys else y :: insertSorted x ys

/-- insertion sort on rationals (the sort underlying `np.median`). -/
def sortQ : List ℚ → List ℚ
  | [] => []
  | x :: xs => insertSorted x (sortQ xs)

/-- median of a list of rationals: middle element of the sorted list, or the
mean of the two middle elements; `none` on the empty list (numpy's NaN). -/
def medianQ (l : List ℚ) : Option ℚ :=
  let s := sortQ l
  let n := s.length
  if n = 0 then none
  else if n % 2 = 1 then some (s.getD (n / 2) 0)
  else some ((s.getD (n / 2 - 1) 0 + s.getD (n / 2) 0) / 2)

/-- arithmetic mean of a list of rationals (0 on the empty list). -/
def meanQ (l : List ℚ) : ℚ := l.sum / (l.length : ℚ)

/-- population variance (`ddof = 0`, as `np.std` uses). -/
def varQ (l : List ℚ) : ℚ :=
  (l.map (fun x => (x - meanQ l) ^ 2)).sum / (l.length : ℚ)

/-- `np.nanmedian`: median of the non-NaN entries; NaN when there are none. -/
def nanmedian (l : List RVal) : RVal := medianQ (l.filterMap id)

/-- `np.nanstd` with the square root `s` abstracted: standard deviation of the
non-NaN entries, NaN when there are none. -/
def nanstd (s : ℚ → ℚ) (l : List RVal) : RVal :=
  let v := l.filterMap id
  if v.length = 0 then none else some (s (varQ v))

/-- `np.median`: NaN as soon as any entry is NaN (and on the empty list). -/
def medianNp (l : List RVal) : RVal :=
  if l.any (fun o => o.isNone) then none else medianQ (l.filterMap id)

/-- `np.std` with the square root `s` abstracted: NaN as soon as any entry is
NaN (and on the empty list). -/
def stdNp (s : ℚ → ℚ) (l : List RVal) : RVal :=
  if l.any (fun o => o.isNone) then none
  else if l.length = 0 then none
  else some (s (varQ (l.filterMap id)))

/-! ### Depth / Noise / SNR estimator, from `01_detection_BLS.py.py` lines 78-92
(identical in `BLS_validation__864.01.py` lines 69-83).  A folded sample is a
list of (phase in days, flux) pairs; `durDays` is the transit duration in days
(the source computes it as `DURATION_HOURS_HINT / 24`). -/

/-- in-transit flux: `lc_folded.flux[np.abs(phase) < duration_phase * 0.5]`. -/
def fluxInW (sample : List (ℚ × RVal)) (durDays per : ℚ) : List RVal :=
  (sample.filter (fun q => |q.1| < durDays / per * 0.5)).map Prod.snd

/-- out-of-transit flux: `lc_folded.flux[np.abs(phase) > duration_phase * 2.0]`. -/
def fluxOutW (sample : List (ℚ × RVal)) (durDays per : ℚ) : List RVal :=
  (sample.filter (fun q => |q.1| > durDays / per * 2.0)).map Prod.snd

/-- `depth_ppm = (np.nanmedian(flux_out) - np.nanmedian(flux_in)) * 1e6`. -/
def depthPpmEst (sample : List (ℚ × RVal)) (durDays per : ℚ) : RVal :=
  (nanmedian (fluxOutW sample durDays per) - nanmedian (fluxInW sample durDays per))
    * some 1e6

/-- `noise_ppm = np.nanstd(flux_out) * 1e6` (square root abstracted in `s`). -/
def noisePpmEst (s : ℚ → ℚ) (sample : List (ℚ × RVal)) (durDays per : ℚ) : RVal :=
  nanstd s (fluxOutW sample durDays per) * some 1e6

/-- `snr_final = (depth_ppm / noise_ppm) * np.sqrt(n_points)` where
`n_points = len(flux_in)`. -/
def snrEst (s : ℚ → ℚ) (sample : List (ℚ × RVal)) (durDays per : ℚ) : RVal :=
  (depthPpmEst sample durDays per / noisePpmEst s sample durDays per)
    * some (s ((fluxInW sample durDays per).length : ℚ))

/-! ### Odd-even transit test, from `05_sanity_checks.py` lines 57-85.
The fold/bin primitives are external (lightkurve); the embedded computation
starts from the two binned samples `binEven`/`binOdd`, lists of
(binned phase in days, binned flux) pairs. -/

/-- round half to even, the rounding of `np.round`. -/
def roundHalfEven (q : ℚ) : ℤ :=
  let f := ⌊q⌋
  let r := q - (f : ℚ)
  if r < 1 / 2 then f
  else if 1 / 2 < r then f + 1
  else if f % 2 = 0 then f else f + 1

/-- `orbit_num = np.round((lc.time.value - T0) / PERIOD).astype(int)`. -/
def orbitNum (t0 per t : ℚ) : ℤ := roundHalfEven ((t - t0) / per)

/-- `mask_even = (orbit_num % 2 == 0)`. -/
def maskEvenOrbit (t0 per t : ℚ) : Bool := decide (orbitNum t0 per t % 2 = 0)

/-- `mask_odd = (orbit_num % 2 != 0)`. -/
def maskOddOrbit (t0 per t : ℚ) : Bool := decide (orbitNum t0 per t % 2 ≠ 0)

/-- flux inside the fixed in-transit window `np.abs(time) < 0.02` days. -/
def winIn (l : List (ℚ × RVal)) : List RVal :=
  (l.filter (fun q => |q.1| < 0.02)).map Prod.snd

/-- flux inside the fixed out-of-transit window `np.abs(time) > 0.03` days. -/
def winOut (l : List (ℚ × RVal)) : List RVal :=
  (l.filter (fun q => |q.1| > 0.03)).map Prod.snd

/-- the source indexes `bin_odd.flux.value` with the boolean masks
`transit_mask_ev` / `out_mask_ev` computed from `bin_even.time.value`; this
positional application pairs the even sample's times with the odd sample's
flux. -/
def oddPositional (binEven binOdd : List (ℚ × RVal)) : List (ℚ × RVal) :=
  List.zip (binEven.map Prod.fst) (binOdd.map Prod.snd)

/-- `depth_even = np.median(bin_even.flux[out_mask_ev]) - np.median(bin_even.flux[transit_mask_ev])`. -/
def depthEven (binEven : List (ℚ × RVal)) : RVal :=
  medianNp (winOut binEven) - medianNp (winIn binEven)

/-- `depth_odd = np.median(bin_odd.flux[out_mask_ev]) - np.median(bin_odd.flux[transit_mask_ev])`
(even-sample masks applied positionally to the odd flux). -/
def depthOddCode (binEven binOdd : List (ℚ × RVal)) : RVal :=
  medianNp (winOut (oddPositional binEven binOdd))
    - medianNp (winIn (oddPositional binEven binOdd))

/-- `sigma_even = np.std(bin_even.flux[out_mask_ev]) / np.sqrt(len(bin_even.flux[transit_mask_ev]))`. -/
def sigmaEven (s : ℚ → ℚ) (binEven : List (ℚ × RVal)) : RVal :=
  stdNp s (winOut binEven) / some (s ((winIn binEven).length : ℚ))

/-- `sigma_odd = np.std(bin_odd.flux[out_mask_ev]) / np.sqrt(len(bin_odd.flux[transit_mask_ev]))`. -/
def sigmaOddCode (s : ℚ → ℚ) (binEven binOdd : List (ℚ × RVal)) : RVal :=
  stdNp s (winOut (oddPositional binEven binOdd))
    / some (s ((winIn (oddPositional binEven binOdd)).length : ℚ))

/-- `sigma_diff = np.sqrt(sigma_even**2 + sigma_odd**2)`. -/
def sigmaDiffCode (s : ℚ → ℚ) (binEven binOdd : List (ℚ × RVal)) : RVal :=
  (sigmaEven s binEven ^ 2 + sigmaOddCode s binEven binOdd ^ 2).map s

/-- `diff_sigma = np.abs(depth_even - depth_odd) / sigma_diff`. -/
def diffSigmaCode (s : ℚ → ℚ) (binEven binOdd : List (ℚ × RVal)) : RVal :=
  oabs (depthEven binEven - depthOddCode binEven binOdd) / sigmaDiffCode s binEven binOdd

/-- per-subset depth as the claim states it: each subset's own binned data,
windows `|phase| < 0.02` / `|phase| > 0.03`. -/
def subsetDepth (l : List (ℚ × RVal)) : RVal :=
  medianNp (winOut l) - medianNp (winIn l)

/-- per-subset uncertainty as the claim states it:
`sigma = stddev(flux[out]) / sqrt(count(flux[in]))` on the subset's own data. -/
def subsetSigma (s : ℚ → ℚ) (l : List (ℚ × RVal)) : RVal :=
  stdNp s (winOut l) / some (s ((winIn l).length : ℚ))

/-- combined significance as the claim states it:
`diff_sigma = |depth_even - depth_odd| / sqrt(sigma_even^2 + sigma_odd^2)`. -/
def diffSigmaSpec (s : ℚ → ℚ) (binEven binOdd : List (ℚ × RVal)) : RVal :=
  oabs (subsetDepth binEven - subsetDepth binOdd)
    / (subsetSigma s binEven ^ 2 + subsetSigma s binOdd ^ 2).map s

/-- verdict printed by the script: `if diff_sigma < 3` reports consistency,
`else` the possible-binary warning; a NaN `diff_sigma` compares false. -/
inductive OddEvenLabel where
  | consistent
  | possibleBinary
deriving DecidableEq

/-- NaN-aware `<` against a constant, as IEEE floats compare (`NaN < c` is false). -/
def oltB (a : RVal) (c : ℚ) : Bool :=
  match a with
  | none => false
  | some q => decide (q < c)

/-- the branch taken by `if diff_sigma < 3: ... else: ...`. -/
def oddEvenVerdict (dsig : RVal) : OddEvenLabel :=
  if oltB dsig 3 then .consistent else .possibleBinary

/-! ### Stellar density check, from `05_sanity_checks.py` lines 104-130.
The physical constants (`G` in cm^3 g^-1 s^-2, `M_sun` in g, `R_sun` in cm)
and the float value of `np.pi` are taken as parameters; the spec states them
as `G = 6.674e-8`, `M_sun = 1.989e33`, `R_sun = 6.957e10`. -/

/-- `rho_star_cat = (M * M_sun) / ((4/3) * np.pi * (R * R_sun)**3)`, already in
g/cm^3 when the constants are the cgs values. -/
def rhoCatCgs (piv msun rsun mStar rStar : ℚ) : ℚ :=
  (mStar * msun) / ((4 / 3) * piv * (rStar * rsun) ^ 3)

/-- `rho_transit = (3 * np.pi / (G_cgs * P_sec**2)) * (a_over_r)**3` with
`P_sec = PERIOD * 86400`. -/
def rhoTransitCgs (piv gc aOverR per : ℚ) : ℚ :=
  (3 * piv / (gc * (per * 86400) ^ 2)) * aOverR ^ 3

/-- `ratio = rho_transit_val / rho_star_cat_cgs`. -/
def densityQuotient (piv gc msun rsun mStar rStar aOverR per : ℚ) : ℚ :=
  rhoTransitCgs piv gc aOverR per / rhoCatCgs piv msun rsun mStar rStar

/-- verdict printed by the density check. -/
inductive DensityLabel where
  | consistent
  | discrepancy
deriving DecidableEq

/-- the branch taken by `if 0.5 < ratio < 2.0: ... else: ...`. -/
def densityLabelOf (q : ℚ) : DensityLabel :=
  if 0.5 < q ∧ q < 2.0 then .consistent else .discrepancy

/-! ### Planetary parameter derivation, from `06_planet_parameters.py`
lines 41-53 and 64-72.  Polymorphic over the number field so that the same
definitions serve the exact rational claims and the real-valued numerical
claims; `sqrtF` stands for `np.sqrt` and `cbrtF` for `** (1/3)`. -/

/-- `planet_radius_earth = (star_radius * 109.076) * np.sqrt(DEPTH_DECIMAL)`
with `DEPTH_DECIMAL = DEPTH_PPM / 1e6`. -/
def planetRadiusEarth {α : Type} [LinearOrderedField α]
    (sqrtF : α → α) (starRadius depthPpm : α) : α :=
  (starRadius * (109076 / 1000)) * sqrtF (depthPpm / 1000000)

/-- `period_years = PERIOD_DAYS / 365.25`. -/
def periodYears {α : Type} [LinearOrderedField α] (periodDays : α) : α :=
  periodDays / (36525 / 100)

/-- `a_au = ((period_years**2) * star_mass)**(1/3)`. -/
def aAu {α : Type} [LinearOrderedField α]
    (cbrtF : α → α) (periodDays starMass : α) : α :=
  cbrtF ((periodYears periodDays) ^ 2 * starMass)

/-- `a_rs = a_au * 215.032`. -/
def aRs {α : Type} [LinearOrderedField α]
    (cbrtF : α → α) (periodDays starMass : α) : α :=
  aAu cbrtF periodDays starMass * (215032 / 1000)

/-- `planet_temp_kelvin = star_temp * np.sqrt(star_radius / (2 * a_rs))`. -/
def planetTempK {α : Type} [LinearOrderedField α]
    (sqrtF cbrtF : α → α) (starRadius starMass starTemp periodDays : α) : α :=
  starTemp * sqrtF (starRadius / (2 * aRs cbrtF periodDays starMass))

/-- `planet_temp_celsius = planet_temp_kelvin - 273.15`. -/
def planetTempC {α : Type} [LinearOrderedField α]
    (sqrtF cbrtF : α → α) (starRadius starMass starTemp periodDays : α) : α :=
  planetTempK sqrtF cbrtF starRadius starMass starTemp periodDays - (27315 / 100)

/-- radius classification bands of the final report. -/
inductive RadiusClass where
  | earthLike
  | superEarth
  | subNeptune
  | gasGiant
deriving DecidableEq

/-- the if/elif chain `planet_radius_earth < 1.2 / < 2.0 / < 4.0 / else` of
`06_planet_parameters.py` lines 65-72. -/
def classify {α : Type} [LinearOrderedField α] (r : α) : RadiusClass :=
  if r < 12 / 10 then .earthLike
  else if r < 2 then .superEarth
  else if r < 4 then .subNeptune
  else .gasGiant

/-! ### Duplicate implementation in `caracterization_864.01.py` lines 34-48
and 60-67, embedded separately to compare with `06_planet_parameters.py`. -/

/-- `planet_radius_earth = (star_radius * 109.076) * np.sqrt(DEPTH_DECIMAL)`
(caracterization script, line 34). -/
def planetRadiusEarthCarac {α : Type} [LinearOrderedField α]
    (sqrtF : α → α) (starRadius depthPpm : α) : α :=
  (starRadius * (109076 / 1000)) * sqrtF (depthPpm / 1000000)

/-- `a_au = ((period_years**2) * star_mass)**(1/3)` (caracterization script,
lines 39-40). -/
def aAuCarac {α : Type} [LinearOrderedField α]
    (cbrtF : α → α) (periodDays starMass : α) : α :=
  cbrtF ((periodDays / (36525 / 100)) ^ 2 * starMass)

/-- `planet_temp_kelvin = star_temp * np.sqrt(star_radius / (2 * a_rs))` with
`a_rs = a_au * 215.032` (caracterization script, lines 46-47). -/
def planetTempKCarac {α : Type} [LinearOrderedField α]
    (sqrtF cbrtF : α → α) (starRadius starMass starTemp periodDays : α) : α :=
  starTemp * sqrtF (starRadius / (2 * (aAuCarac cbrtF periodDays starMass * (215032 / 1000))))

/-- `planet_temp_celsius = planet_temp_kelvin - 273.15` (caracterization
script, line 48). -/
def planetTempCCarac {α : Type} [LinearOrderedField α]
    (sqrtF cbrtF : α → α) (starRadius starMass starTemp periodDays : α) : α :=
  planetTempKCarac sqrtF cbrtF starRadius starMass starTemp periodDays - (27315 / 100)

/-- the if/elif chain of `caracterization_864.01.py` lines 60-67 (same bands). -/
def classifyCarac {α : Type} [LinearOrderedField α] (r : α) : RadiusClass :=
  if r < 12 / 10 then .earthLike
  else if r < 2 then .superEarth
  else if r < 4 then .subNeptune
  else .gasGiant

/-! ### Missing-stellar-parameter handling, `06_planet_parameters.py`
lines 26-35: the catalog may return NaN for radius, mass or temperature
(modelled as `Option ℚ`); each NaN field is replaced by its solar default
before any computation, and line 35 prints the values actually used. -/

/-- the three `if np.isnan(...)` substitutions of lines 31-33:
`star_radius = 1.0`, `star_mass = 1.0`, `star_temp = 5770`. -/
def resolveStellar (catR catM catT : Option ℚ) : ℚ × ℚ × ℚ :=
  (catR.getD 1, catM.getD 1, catT.getD 5770)

/-- everything `06_planet_parameters.py` computes and reports downstream of
the catalog lookup: the star line of substituted values (line 35) and the
derived planet parameters (lines 41-53, 64-72). -/
structure Script06Output where
  starR : ℚ
  starM : ℚ
  starT : ℚ
  radiusEarth : ℚ
  distAu : ℚ
  tempK : ℚ
  tempC : ℚ
  radiusClass : RadiusClass
deriving DecidableEq

/-- the run of `06_planet_parameters.py` from the catalog values on. -/
def script06Run (s c : ℚ → ℚ) (catR catM catT : Option ℚ)
    (depthPpm periodDays : ℚ) : Script06Output :=
  let r := (resolveStellar catR catM catT).1
  let m := (resolveStellar catR catM catT).2.1
  let t := (resolveStellar catR catM catT).2.2
  { starR := r
    starM := m
    starT := t
    radiusEarth := planetRadiusEarth s r depthPpm
    distAu := aAu c periodDays m
    tempK := planetTempK s c r m t periodDays
    tempC := planetTempC s c r m t periodDays
    radiusClass := classify (planetRadiusEarth s r depthPpm) }

/-- the spec's §8 alternative radius computation, `Modelled from the spec:`
"direct computation using `9.731e-4` inverse conversion" — the planet radius
in stellar radii divided by the alleged Earth-per-Sun inverse factor.  This
factor appears nowhere in the source; the definition follows the spec's words
for the refinement comparison of claim C8. -/
def specRadiusViaInverse {α : Type} [LinearOrderedField α]
    (sqrtF : α → α) (starRadius depthFrac : α) : α :=
  starRadius * sqrtF depthFrac / (9731 / 10000000)

/-! ### Helper lemmas -/

/-- zipping the component lists of a list of pairs recovers the list. -/
theorem zipMapFstSnd {α β : Type} (l : List (α × β)) :
    List.zip (l.map Prod.fst) (l.map Prod.snd) = l := by
  induction l with
  | nil => rfl
  | cons a t ih => simp [List.zip_cons_cons, ih]

/-- NaN absorbs subtraction on the right. -/
theorem rvSubNoneRight (a : RVal) : a - none = none := by cases a <;> rfl

/-- NaN absorbs subtraction on the left. -/
theorem rvSubNoneLeft (a : RVal) : (none : RVal) - a = none := by cases a <;> rfl

/-- NaN absorbs multiplication on the left. -/
theorem rvMulNoneLeft (a : RVal) : (none : RVal) * a = none := by cases a <;> rfl

/-- NaN absorbs division on the left. -/
theorem rvDivNoneLeft (a : RVal) : (none : RVal) / a = none := by cases a <;> rfl

/-- componentwise addition of finite values. -/
@[simp] theorem rvAddSome (a b : ℚ) : (some a : RVal) + some b = some (a + b) := rfl

/-- componentwise subtraction of finite values. -/
@[simp] theorem rvSubSome (a b : ℚ) : (some a : RVal) - some b = some (a - b) := rfl

/-- componentwise multiplication of finite values. -/
@[simp] theorem rvMulSome (a b : ℚ) : (some a : RVal) * some b = some (a * b) := rfl

/-- componentwise division of finite values. -/
@[simp] theorem rvDivSome (a b : ℚ) : (some a : RVal) / some b = some (a / b) := rfl

/-- componentwise power of a finite value. -/
@[simp] theorem rvPowSome (a : ℚ) (n : ℕ) : (some a : RVal) ^ n = some (a ^ n) := rfl

/-- NaN absorbs subtraction (left), simp form. -/
@[simp] theorem rvNoneSub (a : RVal) : (none : RVal) - a = none := rvSubNoneLeft a

/-- NaN absorbs subtraction (right), simp form. -/
@[simp] theorem rvSubNone (a : RVal) : a - none = none := rvSubNoneRight a

/-- NaN absorbs multiplication (left), simp form. -/
@[simp] theorem rvNoneMul (a : RVal) : (none : RVal) * a = none := rvMulNoneLeft a

/-- NaN absorbs multiplication (right), simp form. -/
@[simp] theorem rvMulNone (a : RVal) : a * none = none := by cases a <;> rfl

/-- NaN absorbs division (left), simp form. -/
@[simp] theorem rvNoneDiv (a : RVal) : (none : RVal) / a = none := rvDivNoneLeft a

/-- NaN absorbs division (right), simp form. -/
@[simp] theorem rvDivNone (a : RVal) : a / none = none := by cases a <;> rfl

/-- absolute value of a finite value. -/
@[simp] theorem rvAbsSome (a : ℚ) : oabs (some a) = some |a| := rfl

/-- absolute value of NaN. -/
@[simp] theorem rvAbsNone : oabs none = none := rfl

/-! ### Claim theorems -/

/-- Claim C1: the Depth/Noise/SNR estimator selects in-transit points by
`|phase| < 0.5 * (duration_days / period_days)` and out-of-transit points by
`|phase| > 2.0 * (duration_days / period_days)`, and — whenever both windows
select at least one point — returns
`depth_ppm = (median(flux[out]) - median(flux[in])) * 1e6`,
`noise_ppm = stddev(flux[out]) * 1e6` and
`snr = (depth_ppm / noise_ppm) * sqrt(count(flux[in]))`, the median and
standard deviation ignoring NaN flux values (`nanmedian` / `nanstd`). -/
theorem c1_snr_estimator (s : ℚ → ℚ) (sample : List (ℚ × RVal)) (d p : ℚ)
    (hin : (fluxInW sample d p).length ≠ 0)
    (hout : (fluxOutW sample d p).length ≠ 0) :
    fluxInW sample d p
      = (sample.filter (fun q => |q.1| < 0.5 * (d / p))).map Prod.snd ∧
    fluxOutW sample d p
      = (sample.filter (fun q => |q.1| > 2.0 * (d / p))).map Prod.snd ∧
    depthPpmEst sample d p
      = (nanmedian (fluxOutW sample d p) - nanmedian (fluxInW sample d p)) * some 1e6 ∧
    noisePpmEst s sample d p = nanstd s (fluxOutW sample d p) * some 1e6 ∧
    snrEst s sample d p
      = (depthPpmEst sample d p / noisePpmEst s sample d p)
          * some (s ((fluxInW sample d p).length : ℚ)) := by
  refine ⟨?_, ?_, rfl, rfl, rfl⟩
  · unfold fluxInW
    rw [mul_comm (d / p) 0.5]
  · unfold fluxOutW
    rw [mul_comm (d / p) 2.0]

/-- Witness for C1 at a concrete two-point folded sample. -/
theorem c1_snr_estimator_witness :
    ((fluxInW [((0 : ℚ), some 1), (1, some 2)] (2 / 5) 1).length ≠ 0) ∧
    ((fluxOutW [((0 : ℚ), some 1), (1, some 2)] (2 / 5) 1).length ≠ 0) ∧
    depthPpmEst [((0 : ℚ), some 1), (1, some 2)] (2 / 5) 1
      = (nanmedian (fluxOutW [((0 : ℚ), some 1), (1, some 2)] (2 / 5) 1)
          - nanmedian (fluxInW [((0 : ℚ), some 1), (1, some 2)] (2 / 5) 1)) * some 1e6 :=
  ⟨by norm_num [fluxInW, List.filter_cons],
    by norm_num [fluxOutW, List.filter_cons],
    (c1_snr_estimator (fun q => q) [((0 : ℚ), some 1), (1, some 2)] (2 / 5) 1
      (by norm_num [fluxInW, List.filter_cons])
      (by norm_num [fluxOutW, List.filter_cons])).2.2.1⟩

/-- Claim C3: the radius classification label is the first matching band of
`< 1.2` ⇒ Earth-like, `< 2.0` ⇒ Super-Earth, `< 4.0` ⇒ Sub-Neptune,
otherwise Gas giant, all comparisons strict; in particular a radius of
exactly 1.2 classifies as Super-Earth. -/
theorem c3_radius_classification (r : ℚ) :
    (classify r = RadiusClass.earthLike ↔ r < 1.2) ∧
    (classify r = RadiusClass.superEarth ↔ 1.2 ≤ r ∧ r < 2) ∧
    (classify r = RadiusClass.subNeptune ↔ 2 ≤ r ∧ r < 4) ∧
    (classify r = RadiusClass.gasGiant ↔ 4 ≤ r) ∧
    classify (1.2 : ℚ) = RadiusClass.superEarth := by
  refine ⟨?_, ?_, ?_, ?_, by norm_num [classify]⟩ <;>
      (unfold classify; split_ifs with h1 h2 h3) <;>
      first
        | exact iff_of_true rfl (by constructor <;> linarith)
        | exact iff_of_true rfl (by linarith)
        | exact iff_of_false (by simp) (by rintro ⟨ha, hb⟩ <;> linarith)
        | exact iff_of_false (by simp) (by intro hc; linarith)

/-- Witness for C3 applied at the radius 3, landing in the Sub-Neptune band. -/
theorem c3_radius_classification_witness :
    classify (3 : ℚ) = RadiusClass.subNeptune ∧ (2 : ℚ) ≤ 3 ∧ (3 : ℚ) < 4 :=
  ⟨((c3_radius_classification 3).2.2.1).mpr (by norm_num), by norm_num, by norm_num⟩

/-- Claim C4: whenever a stellar parameter is missing (NaN), exactly that
field is replaced by its solar default (R = 1.0, M = 1.0, T = 5770 K) before
any computation; the substituted values are the ones the script reports in
its star line, and the derived outputs are computed from the resolved
(hence NaN-free) values. -/
theorem c4_missing_stellar_defaults (s c : ℚ → ℚ) (catR catM catT : Option ℚ)
    (dp pd : ℚ) :
    (script06Run s c catR catM catT dp pd).starR = catR.getD 1 ∧
    (script06Run s c catR catM catT dp pd).starM = catM.getD 1 ∧
    (script06Run s c catR catM catT dp pd).starT = catT.getD 5770 ∧
    resolveStellar none catM catT = (1, catM.getD 1, catT.getD 5770) ∧
    resolveStellar catR none catT = (catR.getD 1, 1, catT.getD 5770) ∧
    resolveStellar catR catM none = (catR.getD 1, catM.getD 1, 5770) ∧
    (script06Run s c catR catM catT dp pd).radiusEarth
      = planetRadiusEarth s (catR.getD 1) dp ∧
    (script06Run s c catR catM catT dp pd).distAu = aAu c pd (catM.getD 1) ∧
    (script06Run s c catR catM catT dp pd).tempK
      = planetTempK s c (catR.getD 1) (catM.getD 1) (catT.getD 5770) pd ∧
    (script06Run s c catR catM catT dp pd).radiusClass
      = classify (planetRadiusEarth s (catR.getD 1) dp) :=
  ⟨rfl, rfl, rfl, rfl, rfl, rfl, rfl, rfl, rfl, rfl⟩

/-- Claim C9: the two duplicate planetary-parameter implementations
(`06_planet_parameters.py` and `caracterization_864.01.py`) compute equal
planet radius, semi-major axis, equilibrium temperatures and radius
classification for every input tuple. -/
theorem c9_duplicate_equivalence (s c : ℚ → ℚ) (r m T dp pd : ℚ) :
    planetRadiusEarthCarac s r dp = planetRadiusEarth s r dp ∧
    aAuCarac c pd m = aAu c pd m ∧
    planetTempKCarac s c r m T pd = planetTempK s c r m T pd ∧
    planetTempCCarac s c r m T pd = planetTempC s c r m T pd ∧
    ∀ x : ℚ, classifyCarac x = classify x :=
  ⟨rfl, rfl, rfl, rfl, fun _ => rfl⟩

/-- Claim C2, counterexample: the source computes the odd subset's depth and
uncertainty by indexing `bin_odd.flux` with the boolean masks built from
`bin_even.time`, not from the odd subset's own binned times.  For two binned
subsets of equal length whose time grids differ, the code's `diff_sigma`
differs from the claim's per-subset formula. -/
theorem c2_odd_even_counterexample :
    ([((0 : ℚ), some (1 : ℚ)), (1 / 20, some 2)] : List (ℚ × RVal)).length
      = ([((1 : ℚ) / 20, some (10 : ℚ)), (0, some 20)] : List (ℚ × RVal)).length ∧
    diffSigmaCode (fun q => q + 1) [((0 : ℚ), some 1), (1 / 20, some 2)]
        [((1 : ℚ) / 20, some 10), (0, some 20)]
      ≠ diffSigmaSpec (fun q => q + 1) [((0 : ℚ), some 1), (1 / 20, some 2)]
        [((1 : ℚ) / 20, some 10), (0, some 20)] := by
  constructor
  · rfl
  · norm_num [diffSigmaCode, diffSigmaSpec, sigmaDiffCode, depthEven, depthOddCode,
      sigmaEven, sigmaOddCode, oddPositional, subsetDepth, subsetSigma, winIn, winOut,
      medianNp, stdNp, medianQ, sortQ, insertSorted, varQ, meanQ, oabs,
      abs_of_nonneg, abs_of_nonpos,
      List.filter_cons, List.filter_nil, List.any_cons, List.any_nil,
      List.filterMap_cons, List.filterMap_nil, List.zip_cons_cons,
      List.getD_cons_zero, List.getD_cons_succ, List.getD_nil,
      Option.getD_some, Option.getD_none]

/-- Claim C2, amended: whenever the two subsets' binned time grids coincide,
the positional application of the even-subset masks to the odd subset agrees
with the claim's per-subset computation, and then each subset's depth is
`median(flux[out]) - median(flux[in])` with windows `|phase| < 0.02` /
`|phase| > 0.03` days, its uncertainty `stddev(flux[out]) / sqrt(count(flux[in]))`,
and `diff_sigma = |depth_even - depth_odd| / sqrt(sigma_even^2 + sigma_odd^2)`;
the even/odd partition masks from `round((time - T0) / period)` are exact
complements. -/
theorem c2_odd_even_amended (s : ℚ → ℚ) (binEven binOdd : List (ℚ × RVal))
    (h : binEven.map Prod.fst = binOdd.map Prod.fst) :
    diffSigmaCode s binEven binOdd = diffSigmaSpec s binEven binOdd ∧
    depthEven binEven = subsetDepth binEven ∧
    depthOddCode binEven binOdd = subsetDepth binOdd ∧
    sigmaEven s binEven = subsetSigma s binEven ∧
    sigmaOddCode s binEven binOdd = subsetSigma s binOdd ∧
    ∀ t0 per t : ℚ, maskOddOrbit t0 per t = !maskEvenOrbit t0 per t := by
  have hpos : oddPositional binEven binOdd = binOdd := by
    unfold oddPositional
    rw [h, zipMapFstSnd]
  refine ⟨?_, rfl, ?_, rfl, ?_, ?_⟩
  · unfold diffSigmaCode diffSigmaSpec sigmaDiffCode depthOddCode subsetDepth
      sigmaOddCode subsetSigma depthEven sigmaEven
    rw [hpos]
  · unfold depthOddCode subsetDepth
    rw [hpos]
  · unfold sigmaOddCode subsetSigma
    rw [hpos]
  · intro t0 per t
    simp only [maskOddOrbit, maskEvenOrbit, ne_eq, decide_not]

/-- Witness for the amended C2 at two concrete binned subsets sharing one
time grid. -/
theorem c2_odd_even_amended_witness :
    ([((0 : ℚ), some (1 : ℚ)), (1 / 20, some 2)] : List (ℚ × RVal)).map Prod.fst
      = ([((0 : ℚ), some (3 : ℚ)), (1 / 20, some 4)] : List (ℚ × RVal)).map Prod.fst ∧
    diffSigmaCode (fun q => q) [((0 : ℚ), some 1), (1 / 20, some 2)]
        [((0 : ℚ), some 3), (1 / 20, some 4)]
      = diffSigmaSpec (fun q => q) [((0 : ℚ), some 1), (1 / 20, some 2)]
        [((0 : ℚ), some 3), (1 / 20, some 4)] :=
  ⟨rfl,
    (c2_odd_even_amended (fun q => q) [((0 : ℚ), some 1), (1 / 20, some 2)]
      [((0 : ℚ), some 3), (1 / 20, some 4)] rfl).1⟩

/-- Claim C5, counterexample: on a folded sample whose in-transit window
selects zero points, the estimator does not fail — it returns a result whose
depth and SNR are NaN (`np.nanmedian` of an empty selection), contradicting
the claim that the computation fails with an explicit "insufficient data"
error rather than returning NaN. -/
theorem c5_insufficient_data_counterexample :
    fluxInW [((1 : ℚ) / 2, some 1)] (1 / 10) 1 = [] ∧
    depthPpmEst [((1 : ℚ) / 2, some 1)] (1 / 10) 1 = none ∧
    snrEst (fun q => q) [((1 : ℚ) / 2, some 1)] (1 / 10) 1 = none := by
  norm_num [fluxInW, fluxOutW, depthPpmEst, noisePpmEst, snrEst, nanmedian, nanstd,
    medianQ, sortQ, insertSorted, varQ, meanQ, abs_of_nonneg, abs_of_nonpos,
    List.filter_cons, List.filter_nil, List.filterMap_cons, List.filterMap_nil,
    List.getD_cons_zero, Option.getD_some]

/-- Claim C5, amended: whenever either window selects zero points, the
estimator silently returns NaN for `depth_ppm` and `snr` (no error of any
kind is raised by the source). -/
theorem c5_insufficient_data_amended (s : ℚ → ℚ) (sample : List (ℚ × RVal))
    (d p : ℚ) (h : fluxInW sample d p = [] ∨ fluxOutW sample d p = []) :
    depthPpmEst sample d p = none ∧ snrEst s sample d p = none := by
  have hdepth : depthPpmEst sample d p = none := by
    rcases h with h | h
    · have hm : nanmedian (fluxInW sample d p) = none := by rw [h]; rfl
      unfold depthPpmEst
      rw [hm, rvSubNoneRight, rvMulNoneLeft]
    · have hm : nanmedian (fluxOutW sample d p) = none := by rw [h]; rfl
      unfold depthPpmEst
      rw [hm, rvSubNoneLeft, rvMulNoneLeft]
  refine ⟨hdepth, ?_⟩
  unfold snrEst
  rw [hdepth, rvDivNoneLeft, rvMulNoneLeft]

/-- Witness for the amended C5 at a concrete sample with an empty in-transit
window. -/
theorem c5_insufficient_data_witness :
    (fluxInW [((1 : ℚ) / 2, some 1)] (1 / 10) 1 = []
        ∨ fluxOutW [((1 : ℚ) / 2, some 1)] (1 / 10) 1 = []) ∧
    (depthPpmEst [((1 : ℚ) / 2, some 1)] (1 / 10) 1 = none ∧
      snrEst (fun q => q) [((1 : ℚ) / 2, some 1)] (1 / 10) 1 = none) :=
  ⟨Or.inl (by norm_num [fluxInW, abs_of_nonneg, List.filter_cons, List.filter_nil]),
    c5_insufficient_data_amended (fun q => q) [((1 : ℚ) / 2, some 1)] (1 / 10) 1
      (Or.inl (by norm_num [fluxInW, abs_of_nonneg, List.filter_cons, List.filter_nil]))⟩

/-- Claim C6: the stellar density check computes the catalog density as
`M / ((4/3)*pi*R^3)` converted to g/cm^3 with the physical constants, the
transit-derived density as `(3*pi / (G * P_seconds^2)) * (a/R*)^3`, reports
their quotient, and labels "consistent" exactly when the quotient lies
strictly between 0.5 and 2.0. -/
theorem c6_density_check (piv gc msun rsun mStar rStar aOverR per : ℚ)
    (hpi : piv ≠ 0) (hr : rStar ≠ 0) (hrs : rsun ≠ 0) :
    rhoCatCgs piv msun rsun mStar rStar
      = (mStar / ((4 / 3) * piv * rStar ^ 3)) * (msun / rsun ^ 3) ∧
    rhoTransitCgs piv gc aOverR per
      = (3 * piv / (gc * (per * 86400) ^ 2)) * aOverR ^ 3 ∧
    densityQuotient piv gc msun rsun mStar rStar aOverR per
      = rhoTransitCgs piv gc aOverR per / rhoCatCgs piv msun rsun mStar rStar ∧
    (densityLabelOf (densityQuotient piv gc msun rsun mStar rStar aOverR per)
        = DensityLabel.consistent
      ↔ 0.5 < densityQuotient piv gc msun rsun mStar rStar aOverR per
        ∧ densityQuotient piv gc msun rsun mStar rStar aOverR per < 2.0) := by
  refine ⟨?_, rfl, rfl, ?_⟩
  · unfold rhoCatCgs
    field_simp
    ring
  · unfold densityLabelOf
    split_ifs with h
    · exact iff_of_true rfl h
    · exact iff_of_false (by simp) h

/-- Witness for C6 at the spec's stated constants
(`G = 6.674e-8`, `M_sun = 1.989e33` g, `R_sun = 6.957e10` cm) and the
TOI 864.01 stellar inputs. -/
theorem c6_density_check_witness :
    ((3.141592653589793 : ℚ) ≠ 0) ∧ ((0.399 : ℚ) ≠ 0) ∧ ((6.957e10 : ℚ) ≠ 0) ∧
    rhoCatCgs 3.141592653589793 1.989e33 6.957e10 0.380 0.399
      = ((0.380 : ℚ) / ((4 / 3) * 3.141592653589793 * (0.399 : ℚ) ^ 3))
          * ((1.989e33 : ℚ) / (6.957e10 : ℚ) ^ 3) :=
  ⟨by norm_num, by norm_num, by norm_num,
    (c6_density_check 3.141592653589793 6.674e-8 1.989e33 6.957e10 0.380 0.399
      5.01 0.52067 (by norm_num) (by norm_num) (by norm_num)).1⟩

/-- Claim C10: the odd-even test computes its medians and standard deviations
with the non-NaN-ignoring `np.median` / `np.std`; a binned flux containing a
NaN value makes `diff_sigma` NaN, the comparison `diff_sigma < 3` is then
false, and the script reports the significant-difference / possible-binary
branch. -/
theorem c10_nan_propagation_oddeven :
    medianNp [some (1 : ℚ), none] = none ∧
    stdNp (fun q => q) [some (1 : ℚ), none] = none ∧
    diffSigmaCode (fun q => q) [((0 : ℚ), none), (1 / 20, some 1)]
      [((0 : ℚ), some (99 / 100)), (1 / 20, some 1)] = none ∧
    oltB (diffSigmaCode (fun q => q) [((0 : ℚ), none), (1 / 20, some 1)]
      [((0 : ℚ), some (99 / 100)), (1 / 20, some 1)]) 3 = false ∧
    oddEvenVerdict (diffSigmaCode (fun q => q) [((0 : ℚ), none), (1 / 20, some 1)]
      [((0 : ℚ), some (99 / 100)), (1 / 20, some 1)]) = OddEvenLabel.possibleBinary := by
  have hd : diffSigmaCode (fun q => q) [((0 : ℚ), none), (1 / 20, some 1)]
      [((0 : ℚ), some (99 / 100)), (1 / 20, some 1)] = none := by
    norm_num [diffSigmaCode, sigmaDiffCode, depthEven, depthOddCode,
      sigmaEven, sigmaOddCode, oddPositional, winIn, winOut,
      medianNp, stdNp, medianQ, sortQ, insertSorted, varQ, meanQ, oabs,
      abs_of_nonneg, abs_of_nonpos,
      List.filter_cons, List.filter_nil, List.any_cons, List.any_nil,
      List.filterMap_cons, List.filterMap_nil, List.zip_cons_cons,
      List.getD_cons_zero, List.getD_cons_succ, List.getD_nil,
      Option.getD_some, Option.getD_none]
  refine ⟨rfl, rfl, hd, ?_, ?_⟩
  · rw [hd]; rfl
  · rw [hd]; rfl

/-- Claim C7, counterexample: with the stated inputs `star_radius = 0.399`,
`depth = 158 ppm`, `period = 0.520667 d`, `star_mass = 0.380`, the documented
formulas give `planet_radius_earth = 0.399 * 109.076 * sqrt(158e-6) ≈ 0.547`,
not within 1% of the reported 1.37, and
`a_au = ((period/365.25)^2 * 0.38)^(1/3) ≈ 0.00917`, not within 1% of the
reported 0.0093. -/
theorem c7_scenario_counterexample :
    ¬ (|planetRadiusEarth Real.sqrt (0.399 : ℝ) 158 - 1.37| ≤ 0.0137) ∧
    ¬ (|aAu (fun x : ℝ => x ^ ((1 : ℝ) / 3)) 0.520667 0.38 - 0.0093| ≤ 0.000093) := by
  constructor
  · simp only [planetRadiusEarth]
    have h0 : (0 : ℝ) ≤ Real.sqrt ((158 : ℝ) / 1000000) := Real.sqrt_nonneg _
    have h1 : Real.sqrt ((158 : ℝ) / 1000000) ≤ 0.0126 := by
      rw [show (0.0126 : ℝ) = Real.sqrt (0.0126 ^ 2) from (Real.sqrt_sq (by norm_num)).symm]
      exact Real.sqrt_le_sqrt (by norm_num)
    intro hc
    rw [abs_le] at hc
    have hl := hc.1
    linarith
  · simp only [aAu, periodYears]
    have hx0 : (0 : ℝ) ≤ ((0.520667 : ℝ) / (36525 / 100)) ^ 2 * 0.38 := by positivity
    have hub : (((0.520667 : ℝ) / (36525 / 100)) ^ 2 * 0.38) ^ ((1 : ℝ) / 3) ≤ 0.0092 := by
      have h2 : ((0.520667 : ℝ) / (36525 / 100)) ^ 2 * 0.38 ≤ (0.0092 : ℝ) ^ (3 : ℕ) := by
        norm_num
      have h3 := Real.rpow_le_rpow hx0 h2 (by norm_num : (0 : ℝ) ≤ 1 / 3)
      calc (((0.520667 : ℝ) / (36525 / 100)) ^ 2 * 0.38) ^ ((1 : ℝ) / 3)
          ≤ ((0.0092 : ℝ) ^ (3 : ℕ)) ^ ((1 : ℝ) / 3) := h3
        _ = 0.0092 := by
            rw [← Real.rpow_natCast (0.0092 : ℝ) 3,
              ← Real.rpow_mul (by norm_num : (0 : ℝ) ≤ 0.0092),
              show ((3 : ℕ) : ℝ) * ((1 : ℝ) / 3) = 1 by push_cast; ring,
              Real.rpow_one]
    intro hc
    rw [abs_le] at hc
    have hl := hc.1
    linarith

/-- Claim C7, amended: with those inputs the documented formulas yield
`planet_radius_earth` within 1% of 0.547 Earth radii — landing in the
Earth-like band, not the Super-Earth band — and `a_au` within 1% of
0.00917 AU.  (The reported 1.37 instead corresponds to the solar-default
stellar radius 1.0.) -/
theorem c7_scenario_amended :
    |planetRadiusEarth Real.sqrt (0.399 : ℝ) 158 - 0.547| ≤ 0.00547 ∧
    classify (planetRadiusEarth Real.sqrt (0.399 : ℝ) 158) = RadiusClass.earthLike ∧
    |aAu (fun x : ℝ => x ^ ((1 : ℝ) / 3)) 0.520667 0.38 - 0.00917| ≤ 0.0000917 := by
  have h0 : (0 : ℝ) ≤ Real.sqrt ((158 : ℝ) / 1000000) := Real.sqrt_nonneg _
  have h1 : Real.sqrt ((158 : ℝ) / 1000000) ≤ 0.0126 := by
    rw [show (0.0126 : ℝ) = Real.sqrt (0.0126 ^ 2) from (Real.sqrt_sq (by norm_num)).symm]
    exact Real.sqrt_le_sqrt (by norm_num)
  have h2 : (0.01256 : ℝ) ≤ Real.sqrt ((158 : ℝ) / 1000000) := by
    rw [show (0.01256 : ℝ) = Real.sqrt (0.01256 ^ 2) from (Real.sqrt_sq (by norm_num)).symm]
    exact Real.sqrt_le_sqrt (by norm_num)
  refine ⟨?_, ?_, ?_⟩
  · simp only [planetRadiusEarth]
    rw [abs_le]
    constructor <;> linarith
  · have hlt : planetRadiusEarth Real.sqrt (0.399 : ℝ) 158 < 12 / 10 := by
      simp only [planetRadiusEarth]
      linarith
    unfold classify
    rw [if_pos hlt]
  · simp only [aAu, periodYears]
    have hx0 : (0 : ℝ) ≤ ((0.520667 : ℝ) / (36525 / 100)) ^ 2 * 0.38 := by positivity
    have hub : (((0.520667 : ℝ) / (36525 / 100)) ^ 2 * 0.38) ^ ((1 : ℝ) / 3) ≤ 0.00918 := by
      have hcube : ((0.520667 : ℝ) / (36525 / 100)) ^ 2 * 0.38 ≤ (0.00918 : ℝ) ^ (3 : ℕ) := by
        norm_num
      have h3 := Real.rpow_le_rpow hx0 hcube (by norm_num : (0 : ℝ) ≤ 1 / 3)
      calc (((0.520667 : ℝ) / (36525 / 100)) ^ 2 * 0.38) ^ ((1 : ℝ) / 3)
          ≤ ((0.00918 : ℝ) ^ (3 : ℕ)) ^ ((1 : ℝ) / 3) := h3
        _ = 0.00918 := by
            rw [← Real.rpow_natCast (0.00918 : ℝ) 3,
              ← Real.rpow_mul (by norm_num : (0 : ℝ) ≤ 0.00918),
              show ((3 : ℕ) : ℝ) * ((1 : ℝ) / 3) = 1 by push_cast; ring,
              Real.rpow_one]
    have hlb : (0.00917 : ℝ) ≤ (((0.520667 : ℝ) / (36525 / 100)) ^ 2 * 0.38) ^ ((1 : ℝ) / 3) := by
      have hcube : (0.00917 : ℝ) ^ (3 : ℕ) ≤ ((0.520667 : ℝ) / (36525 / 100)) ^ 2 * 0.38 := by
        norm_num
      have h3 := Real.rpow_le_rpow (by positivity : (0 : ℝ) ≤ (0.00917 : ℝ) ^ (3 : ℕ))
        hcube (by norm_num : (0 : ℝ) ≤ 1 / 3)
      calc (0.00917 : ℝ)
          = ((0.00917 : ℝ) ^ (3 : ℕ)) ^ ((1 : ℝ) / 3) := by
            rw [← Real.rpow_natCast (0.00917 : ℝ) 3,
              ← Real.rpow_mul (by norm_num : (0 : ℝ) ≤ 0.00917),
              show ((3 : ℕ) : ℝ) * ((1 : ℝ) / 3) = 1 by push_cast; ring,
              Real.rpow_one]
        _ ≤ (((0.520667 : ℝ) / (36525 / 100)) ^ 2 * 0.38) ^ ((1 : ℝ) / 3) := h3
    rw [abs_le]
    constructor <;> linarith

/-- Claim C8, counterexample: the forward conversion
`star_radius * 109.076 * sqrt(depth)` and the spec's "direct computation
using the `9.731e-4` inverse conversion" disagree by a factor of about 9.42
(at `star_radius = 1`, depth fraction 1: 109.076 versus ≈ 1027.6), far
beyond a 1% tolerance — `9.731e-4` is not the inverse of 109.076. -/
theorem c8_inverse_factor_counterexample :
    ¬ (|planetRadiusEarth Real.sqrt (1 : ℝ) 1000000 - specRadiusViaInverse Real.sqrt (1 : ℝ) 1|
        ≤ (1 / 100) * planetRadiusEarth Real.sqrt (1 : ℝ) 1000000) := by
  have h : ((1000000 : ℝ) / 1000000) = 1 := by norm_num
  simp only [planetRadiusEarth, specRadiusViaInverse, h, Real.sqrt_one]
  intro hc
  rw [abs_le] at hc
  have hl := hc.1
  norm_num at hl

/-- Claim C8, amended: the forward conversion agrees exactly with the direct
computation that uses the true inverse factor `1 / 109.076`; the spec's
stated factor `9.731e-4` is wrong. -/
theorem c8_inverse_factor_amended (r d : ℝ) :
    planetRadiusEarth Real.sqrt r (d * 1000000)
      = r * Real.sqrt d / (1 / (109076 / 1000)) := by
  have h : (d * 1000000) / 1000000 = d := by ring
  simp only [planetRadiusEarth, h]
  rw [one_div, div_inv_eq_mul]
  ring

end TransitVetting
